import Mathlib

/-!
Verification of the esp32cam_viewer concurrent core against its design
specification.  The development shallowly embeds the three consumer
threads of the repository:

* `clampRoi` — the ROI clamping performed at the top of each loop
  iteration of `SpeedCalculationThread.run` (speed_thread.py, lines
  94-102) and of `DetectionThread.run` (detection_thread.py, lines
  162-172).  Machine integers are modelled as `Int`.
* the `ControlThread` command exchange (control_thread.py): the socket
  is abstracted as a transport oracle giving the outcome of the single
  connect attempt and of the single send/receive exchange a command
  performs; Qt signal emissions are recorded as event logs.
* the `DetectionThread` grid state machine (detection_thread.py): the
  OpenCV black-line test `detect_black_line` and the YOLO inference are
  opaque per-frame observations `(line present?, results list non-empty?)`;
  the grid bookkeeping of `process_roi` and `run` is embedded verbatim.
  Iterations in which the frame source yields no frame, or the clamped
  ROI is empty, leave every state variable unchanged in the source and
  are therefore omitted from traces.
* the `SpeedCalculationThread` crossing calibrator (speed_thread.py):
  embedded at the granularity of valid-crossing events, each carrying
  the wall-clock time at which the crossing is processed; iterations
  without a qualifying contour change no state.  Wall-clock times and
  the float constants of the source are modelled as exact rationals.
-/

namespace Esp32

/-! ### ROI clamping (speed_thread.py 94-102, detection_thread.py 162-172) -/

/-- One clamping pass over an ROI `(x, y, w, h)` against a frame of size
`fw × fh`: `x` and `y` are clipped to be non-negative, then `w` and `h`
are capped by the remaining frame extent, exactly as in
`actual_roi_x = max(0, x)` … `actual_roi_h = min(height, frame_h - actual_roi_y)`. -/
def clampRoi (fw fh : ℤ) : ℤ × ℤ × ℤ × ℤ → ℤ × ℤ × ℤ × ℤ
  | (x, y, w, h) => (max 0 x, max 0 y, min w (fw - max 0 x), min h (fh - max 0 y))

/-! ### ControlThread (control_thread.py) -/

/-- Outcome of the single `sendall`/`recv(1)` exchange a command performs:
either it completes and delivers the received bytes (possibly `[]` on a
graceful close), or a transport exception is raised somewhere in it. -/
inductive TransportOutcome where
  | ok (resp : List ℕ)
  | exn
deriving Repr, DecidableEq

/-- The transport oracle consulted by one `_process_command` call:
whether `_establish_connection` would succeed if attempted, and the
outcome of the command exchange itself. -/
structure Oracle where
  connOk : Bool
  outcome : TransportOutcome
deriving Repr, DecidableEq

/-- State of a `ControlThread`.  `connected` and `lightOn` are the stored
fields `_connected` and `_light_on`; `sentLog`, `connEvents` and
`lightEvents` record the `command_sent`, `connection_status` and
`light_state_changed` signal emissions; `errors` counts
`connection_error` emissions; `connectAttempts` and `exchanges` count
the socket connect attempts and send/receive exchanges actually made. -/
structure CtrlSt where
  connected : Bool
  lightOn : Bool
  sentLog : List (Char × Bool)
  connEvents : List Bool
  lightEvents : List Bool
  errors : ℕ
  connectAttempts : ℕ
  exchanges : ℕ
deriving Repr, DecidableEq

/-- The freshly constructed thread: `_connected = False`, `_light_on = False`. -/
def initCtrl : CtrlSt :=
  { connected := false, lightOn := false, sentLog := [], connEvents := [],
    lightEvents := [], errors := 0, connectAttempts := 0, exchanges := 0 }

/-- `_cleanup_socket`: drops the socket and, when the channel was
connected, marks it disconnected and emits `connection_status(False)`. -/
def cleanupSocket (s : CtrlSt) : CtrlSt :=
  if s.connected = true then
    { s with connected := false, connEvents := s.connEvents ++ [false] }
  else s

/-- `_establish_connection`: one connect attempt; on success the channel
becomes connected and `connection_status(True)` is emitted, on failure
the socket is cleaned up and `connection_error` is emitted. -/
def establishConnection (s : CtrlSt) (connOk : Bool) : CtrlSt × Bool :=
  let s1 := { s with connectAttempts := s.connectAttempts + 1 }
  if connOk = true then
    ({ s1 with connected := true, connEvents := s1.connEvents ++ [true] }, true)
  else
    let s2 := cleanupSocket s1
    ({ s2 with errors := s2.errors + 1 }, false)

/-- `_process_command`: connect on demand, perform the single exchange,
define success as the response equal to the one byte `0x31`, update the
light state on `L`/`l`, and report the command result; a transport
exception cleans the socket up, emits `connection_error` and reports
failure. -/
def processCommand (s : CtrlSt) (o : Oracle) (c : Char) : CtrlSt :=
  let p := if s.connected = true then (s, true) else establishConnection s o.connOk
  if p.2 = false then
    { p.1 with sentLog := p.1.sentLog ++ [(c, false)] }
  else
    match o.outcome with
    | .ok resp =>
        let success : Bool := decide (resp = [0x31])
        let s2 := { p.1 with exchanges := p.1.exchanges + 1 }
        let s3 :=
          if c = 'L' then
            { s2 with lightOn := true, lightEvents := s2.lightEvents ++ [true] }
          else if c = 'l' then
            { s2 with lightOn := false, lightEvents := s2.lightEvents ++ [false] }
          else s2
        { s3 with sentLog := s3.sentLog ++ [(c, success)] }
    | .exn =>
        let s2 := cleanupSocket { p.1 with exchanges := p.1.exchanges + 1 }
        { s2 with errors := s2.errors + 1, sentLog := s2.sentLog ++ [(c, false)] }

/-- `send_command`: characters outside `('L', 'l', 'P')` are rejected up
front with a `connection_error` emission and `False`; accepted characters
are processed and `True` is returned. -/
def sendCommand (s : CtrlSt) (o : Oracle) (c : Char) : CtrlSt × Bool :=
  if c ∉ (['L', 'l', 'P'] : List Char) then
    ({ s with errors := s.errors + 1 }, false)
  else
    (processCommand s o c, true)

/-! ### DetectionThread (detection_thread.py) -/

/-- The per-frame observation a `DetectionThread` iteration makes of its
clamped ROI: `line` is the boolean returned by `detect_black_line`
("black line close to the lower ROI boundary"), `inf` is whether the
YOLO call `self.model(roi, ...)` returns a non-empty results list.  The
pixel-level computations behind both are opaque to the grid logic. -/
structure Obs where
  line : Bool
  inf : Bool
deriving Repr, DecidableEq

/-- State of a `DetectionThread`: the `running`, `count`, `total_count`,
`detection_active`, `last_black_line_state`, `seed_detected` and `x`
instance variables, whether a debug save path is configured
(`debug_save_path` non-null), and the log of `detection_result` signal
emissions. -/
structure DetSt where
  running : Bool
  count : ℕ
  totalCount : ℕ
  detectionActive : Bool
  lastBlackLineState : Bool
  seedDetected : Bool
  x : Bool
  debugSave : Bool
  emitted : List (ℕ × Bool)
deriving Repr, DecidableEq

/-- The thread state right after `run` sets `self.running = True`: all
other variables still hold their `__init__` values, with the hard-coded
grid requirement `self.count = 2`. -/
def initDet (debugSave : Bool) : DetSt :=
  { running := true, count := 2, totalCount := 0, detectionActive := false,
    lastBlackLineState := false, seedDetected := false, x := false,
    debugSave := debugSave, emitted := [] }

/-- `process_roi` on one observation: edge-triggered black-line
bookkeeping (an arrival activates detection and increments
`total_count`), then `self.seed_detected = False`, then — when detection
is active and the end flag `x` is unset — the inference result is
consulted and a non-empty results list sets `seed_detected` to `True`.
Returns the new state together with the returned `seed_detected` value. -/
def processRoi (s : DetSt) (o : Obs) : DetSt × Bool :=
  let s1 :=
    if o.line ≠ s.lastBlackLineState then
      if o.line = true then
        { s with detectionActive := true, totalCount := s.totalCount + 1,
                 lastBlackLineState := o.line }
      else
        { s with lastBlackLineState := o.line }
    else s
  let s2 := { s1 with seedDetected := false }
  let s3 :=
    if s2.detectionActive = true ∧ s2.x = false ∧ o.inf = true then
      { s2 with seedDetected := true }
    else s2
  (s3, s3.seedDetected)

/-- One iteration of `DetectionThread.run` that sees the observation `o`:
if all required grids are done, a final `process_roi` pass runs with the
end flag set (only when a black line is still present) and the thread
stops; otherwise the frame is processed normally, and when a debug path
is configured a detected seed is saved and the flag reset. -/
def detStep (s : DetSt) (o : Obs) : DetSt :=
  if s.running = true then
    if s.count ≤ s.totalCount then
      let s1 :=
        if s.lastBlackLineState = true then (processRoi { s with x := true } o).1
        else s
      { s1 with running := false }
    else
      let p := processRoi s o
      let s2 := { p.1 with seedDetected := p.2 }
      if s2.debugSave = true ∧ s2.seedDetected = true then
        { s2 with seedDetected := false }
      else s2
  else s

/-- A whole run: fold the iteration step over a trace of observations. -/
def runDet (s : DetSt) (tr : List Obs) : DetSt :=
  tr.foldl detStep s

/-! ### SpeedCalculationThread (speed_thread.py) -/

/-- `MARKER_DISTANCE_M = 0.04`, as an exact rational. -/
def MARKER_DISTANCE_M : ℚ := 4 / 100

/-- `NUM_WHITE_MARKERS = 11`. -/
def NUM_WHITE_MARKERS : ℤ := 11

/-- `TOTAL_MARKERS = 1 + NUM_WHITE_MARKERS`. -/
def TOTAL_MARKERS : ℤ := 1 + NUM_WHITE_MARKERS

/-- `timeout_seconds = 45`. -/
def timeoutSeconds : ℚ := 45

/-- State of a `SpeedCalculationThread`: the `crossing_timestamps` and
`expected_marker_index` variables, the log of speeds emitted on
`calculation_complete`, the `_running` flag, the configured
`time_limit`, the loop entry time `start_time`, and a count of
`calculation_error` emissions. -/
structure SpeedSt where
  timestamps : List ℚ
  speeds : List ℚ
  expectedIdx : ℤ
  running : Bool
  timeLimit : ℚ
  startTime : ℚ
  errors : ℕ
deriving Repr, DecidableEq

/-- The state at loop entry of `run`: timestamps reset, index 0, running. -/
def initSpeed (tl start : ℚ) : SpeedSt :=
  { timestamps := [], speeds := [], expectedIdx := 0, running := true,
    timeLimit := tl, startTime := start, errors := 0 }

/-- One valid-crossing event processed at wall-clock time `t` (the
iteration in which a large-enough contour centroid sits within tolerance
of the reference line).  It mirrors the loop body: the `while` guard,
the 45-second timeout check, appending the timestamp, the speed
computation `MARKER_DISTANCE_M / time_diff` for time differences above
`time_limit` — with the too-small case popping the timestamp and rolling
the index back — the unconditional index increment, and the terminal
check against `TOTAL_MARKERS`. -/
def onCrossing (s : SpeedSt) (t : ℚ) : SpeedSt :=
  if s.running = true ∧ s.expectedIdx < TOTAL_MARKERS then
    if timeoutSeconds < t - s.startTime then
      { s with running := false, errors := s.errors + 1 }
    else
      let ts := s.timestamps ++ [t]
      let s1 :=
        if 2 ≤ ts.length then
          let d := t - s.timestamps.getLastD 0
          if s.timeLimit < d then
            { s with timestamps := ts,
                     speeds := s.speeds ++ [MARKER_DISTANCE_M / d] }
          else
            { s with timestamps := ts.dropLast,
                     expectedIdx := s.expectedIdx - 1 }
        else
          { s with timestamps := ts }
      let s2 := { s1 with expectedIdx := s1.expectedIdx + 1 }
      if s2.expectedIdx < TOTAL_MARKERS then s2
      else { s2 with running := false }
  else s

/-- The pairwise speeds list comprehension of the final block: over all
consecutive timestamp differences, keep those above `0.001` and map them
to `MARKER_DISTANCE_M / diff`. -/
def pairSpeeds (ts : List ℚ) : List ℚ :=
  ((((ts.drop 1).zipWith (fun a b => a - b) ts).filter
      (fun d => decide ((1 : ℚ) / 1000 < d))).map
    (fun d => MARKER_DISTANCE_M / d))

/-- The final block of `run` after the loop exits: a manual stop only
reports a status; a completed run (index at `TOTAL_MARKERS` with at
least two timestamps) computes a final status speed and, when every
marker was captured, emits the average of the valid pairwise speeds on
`calculation_complete`; `_running` ends `False` in every case. -/
def finalPhase (s : SpeedSt) : SpeedSt :=
  let s1 :=
    if s.running = true ∧ s.expectedIdx < TOTAL_MARKERS then s
    else if s.expectedIdx = TOTAL_MARKERS ∧ 2 ≤ s.timestamps.length then
      if (s.timestamps.length : ℤ) = TOTAL_MARKERS then
        let sp := pairSpeeds s.timestamps
        if sp.length ≠ 0 then
          { s with speeds := s.speeds ++ [sp.sum / (sp.length : ℚ)] }
        else s
      else s
    else s
  { s1 with running := false }

/-- A full calibration run over the valid-crossing events `times`. -/
def runCalib (tl start : ℚ) (times : List ℚ) : SpeedSt :=
  finalPhase (times.foldl onCrossing (initSpeed tl start))

/-- The crossing times of a synthetic run whose markers pass the
reference line at the fixed rate `d`, starting at `t0`. -/
def arithTimes (t0 d : ℚ) : ℕ → List ℚ
  | 0 => []
  | k + 1 => arithTimes t0 d k ++ [t0 + (k : ℚ) * d]

/-! ## Claim C9 — ROI clamping is idempotent -/

/-- Claim C9: for every ROI `(x, y, w, h)` with `w > 0` and `h > 0` lying
inside the bounds of a `fw × fh` frame, the clamping operation of the
run loops is idempotent: clamping an already-clamped ROI yields the same
ROI. -/
theorem clampRoi_idempotent (fw fh x y w h : ℤ)
    (hw : 0 < w) (hh : 0 < h) (hx : 0 ≤ x) (hy : 0 ≤ y)
    (hxw : x + w ≤ fw) (hyh : y + h ≤ fh) :
    clampRoi fw fh (clampRoi fw fh (x, y, w, h)) = clampRoi fw fh (x, y, w, h) := by
  simp only [clampRoi, Prod.mk.injEq]
  refine ⟨?_, ?_, ?_, ?_⟩ <;> omega

/-- Witness for C9 at the concrete ROI `(3, 4, 10, 20)` in a `640 × 480`
frame. -/
theorem clampRoi_idempotent_witness :
    clampRoi 640 480 (clampRoi 640 480 (3, 4, 10, 20)) = clampRoi 640 480 (3, 4, 10, 20) :=
  clampRoi_idempotent 640 480 3 4 10 20 (by decide) (by decide) (by decide)
    (by decide) (by decide) (by decide)

/-! ## Claim C5 — accepted command alphabet -/

/-- Counterexample to claim C5: the claim states that `send` accepts the
digit commands `'1'` to `'5'`, but `send_command` rejects `'1'` exactly
like any other non-alphabet character — it returns `False`, emits one
`connection_error`, and leaves the channel untouched (no connect
attempt, no exchange, no state change), even with a transport that would
acknowledge the command. -/
theorem sendCommand_rejects_digit :
    sendCommand initCtrl ⟨true, .ok [0x31]⟩ '1' =
      ({ initCtrl with errors := 1 }, false) := by
  decide

/-- Claim C5 (amended): `send_command` accepts exactly the characters
`{'L', 'l', 'P'}`; every other character — the digits `'1'`–`'5'`
included — is rejected synchronously with only an error notification,
returning `False` and leaving the channel state, the emission logs and
the transport untouched. -/
theorem sendCommand_alphabet (s : CtrlSt) (o : Oracle) (c : Char) :
    (c ∉ (['L', 'l', 'P'] : List Char) →
      sendCommand s o c = ({ s with errors := s.errors + 1 }, false)) ∧
    (c ∈ (['L', 'l', 'P'] : List Char) → (sendCommand s o c).2 = true) := by
  constructor
  · intro hc
    simp [sendCommand, hc]
  · intro hc
    simp [sendCommand, hc]

/-- Witness for C5 (amended) at `'x'` (rejected) and `'P'` (accepted). -/
theorem sendCommand_alphabet_witness :
    sendCommand initCtrl ⟨true, .ok [0x31]⟩ 'x' =
      ({ initCtrl with errors := 1 }, false) ∧
    (sendCommand initCtrl ⟨true, .ok [0x31]⟩ 'P').2 = true :=
  ⟨(sendCommand_alphabet initCtrl ⟨true, .ok [0x31]⟩ 'x').1 (by decide),
   (sendCommand_alphabet initCtrl ⟨true, .ok [0x31]⟩ 'P').2 (by decide)⟩

/-! ## Claim C4 — light state update -/

/-- Counterexample to claim C4: on a connected channel an `'L'` command
answered with the reject byte `0x30` is reported failed, yet
`_process_command` still sets the stored light state to on — the update
is not gated on a successful acknowledgement. -/
theorem lightOn_updated_on_rejected_ack :
    (processCommand { initCtrl with connected := true } ⟨true, .ok [0x30]⟩ 'L').lightOn
        = true ∧
    (processCommand { initCtrl with connected := true } ⟨true, .ok [0x30]⟩ 'L').sentLog
        = [('L', false)] := by
  decide

/-- Claim C4 (amended): the stored light state is updated by every
`'L'`/`'l'` command whose send/receive exchange completes without a
transport exception, regardless of the response byte — whether the
channel was already connected or the on-demand connection attempt
succeeded first; it is left unchanged only when the exchange raises a
transport exception or the on-demand connection attempt fails. -/
theorem lightOn_update_semantics (s : CtrlSt) (o : Oracle) (resp : List ℕ) :
    ((s.connected = true ∨ o.connOk = true) → o.outcome = .ok resp →
      (processCommand s o 'L').lightOn = true ∧
      (processCommand s o 'l').lightOn = false) ∧
    (o.outcome = .exn → ∀ c, (processCommand s o c).lightOn = s.lightOn) ∧
    (s.connected = false → o.connOk = false →
      ∀ c, (processCommand s o c).lightOn = s.lightOn) := by
  refine ⟨?_, ?_, ?_⟩
  · intro h ho
    by_cases hc : s.connected = true
    · simp [processCommand, hc, ho]
    · have hk : o.connOk = true := by
        rcases h with h | h
        · exact absurd h hc
        · exact h
      simp only [Bool.not_eq_true] at hc
      simp [processCommand, hc, hk, establishConnection, ho]
  · intro ho c
    by_cases hc : s.connected = true
    · simp [processCommand, hc, ho, cleanupSocket]
    · simp only [Bool.not_eq_true] at hc
      by_cases hk : o.connOk = true
      · simp [processCommand, hc, hk, establishConnection, ho, cleanupSocket]
      · simp only [Bool.not_eq_true] at hk
        simp [processCommand, hc, hk, establishConnection, cleanupSocket]
  · intro hc hk c
    simp [processCommand, hc, hk, establishConnection, cleanupSocket]

/-- Witness for C4 (amended): a connected channel acknowledging with
`0x31` updates the light state on `'l'`; a disconnected channel whose
on-demand connect succeeds updates it on `'L'` even when the response is
the reject byte `0x30`; and a transport exception leaves it unchanged. -/
theorem lightOn_update_semantics_witness :
    (processCommand { initCtrl with connected := true } ⟨true, .ok [0x31]⟩ 'l').lightOn
        = false ∧
    (processCommand initCtrl ⟨true, .ok [0x30]⟩ 'L').lightOn = true ∧
    (processCommand { initCtrl with connected := true, lightOn := true } ⟨true, .exn⟩ 'P').lightOn
        = true :=
  ⟨((lightOn_update_semantics { initCtrl with connected := true }
      ⟨true, .ok [0x31]⟩ [0x31]).1 (Or.inl rfl) rfl).2,
   ((lightOn_update_semantics initCtrl ⟨true, .ok [0x30]⟩ [0x30]).1 (Or.inr rfl) rfl).1,
   (lightOn_update_semantics { initCtrl with connected := true, lightOn := true }
      ⟨true, .exn⟩ []).2.1 rfl 'P'⟩

/-! ## Claim C6 — response semantics and exception teardown -/

/-- Claim C6: over a connected channel a command is reported successful
exactly when the received response is the single byte `0x31` (so `0x30`
yields failure), and a transport exception during the exchange marks the
channel disconnected, notifies observers via `connection_status(False)`,
reports the command failed, and performs no retry — exactly one exchange
is attempted. -/
theorem response_ack_semantics (s : CtrlSt) (o : Oracle) (c : Char)
    (h : s.connected = true) :
    (∀ resp, o.outcome = .ok resp →
      (processCommand s o c).sentLog = s.sentLog ++ [(c, decide (resp = [0x31]))] ∧
      (processCommand s o c).connected = true ∧
      (processCommand s o c).exchanges = s.exchanges + 1) ∧
    (o.outcome = .exn →
      (processCommand s o c).connected = false ∧
      (processCommand s o c).connEvents = s.connEvents ++ [false] ∧
      (processCommand s o c).sentLog = s.sentLog ++ [(c, false)] ∧
      (processCommand s o c).exchanges = s.exchanges + 1) := by
  constructor
  · intro resp ho
    by_cases hL : c = 'L'
    · simp [processCommand, h, ho, hL]
    · by_cases hl : c = 'l'
      · simp [processCommand, h, ho, hL, hl]
      · simp [processCommand, h, ho, hL, hl]
  · intro ho
    simp [processCommand, h, ho, cleanupSocket]

/-- Witness for C6: on a connected channel, response `0x30` yields a
logged failure and response `0x31` a logged success, and a transport
exception disconnects the channel. -/
theorem response_ack_semantics_witness :
    (processCommand { initCtrl with connected := true } ⟨true, .ok [0x30]⟩ 'P').sentLog
        = [('P', false)] ∧
    (processCommand { initCtrl with connected := true } ⟨true, .ok [0x31]⟩ 'P').sentLog
        = [('P', true)] ∧
    (processCommand { initCtrl with connected := true } ⟨true, .exn⟩ 'P').connected
        = false := by
  refine ⟨?_, ?_, ?_⟩
  · exact (((response_ack_semantics { initCtrl with connected := true }
      ⟨true, .ok [0x30]⟩ 'P' rfl).1 [0x30] rfl).1).trans (by decide)
  · exact (((response_ack_semantics { initCtrl with connected := true }
      ⟨true, .ok [0x31]⟩ 'P' rfl).1 [0x31] rfl).1).trans (by decide)
  · exact ((response_ack_semantics { initCtrl with connected := true }
      ⟨true, .exn⟩ 'P' rfl).2 rfl).1

/-! ## DetectionThread helper lemmas -/

/-- `process_roi` never emits on `detection_result`. -/
lemma processRoi_emitted (s : DetSt) (o : Obs) :
    (processRoi s o).1.emitted = s.emitted := by
  simp only [processRoi]
  split_ifs <;> rfl

/-- One run-loop iteration never emits on `detection_result`. -/
lemma detStep_emitted (s : DetSt) (o : Obs) :
    (detStep s o).emitted = s.emitted := by
  simp only [detStep]
  split
  · split
    · split
      · simp [processRoi_emitted]
      · rfl
    · split <;> simp [processRoi_emitted]
  · rfl

/-- `process_roi` increments `total_count` by at most one. -/
lemma processRoi_totalCount_le (s : DetSt) (o : Obs) :
    (processRoi s o).1.totalCount ≤ s.totalCount + 1 := by
  simp only [processRoi]
  split_ifs <;> simp

/-- While a black line is already present, `process_roi` cannot record a
new arrival, so `total_count` is unchanged. -/
lemma processRoi_totalCount_of_line (s : DetSt) (o : Obs)
    (h : s.lastBlackLineState = true) :
    (processRoi s o).1.totalCount = s.totalCount := by
  simp only [processRoi]
  split_ifs with h1 h2 <;> first
    | rfl
    | (rw [h] at h1; exact absurd h2 h1)

/-- `process_roi` leaves the grid requirement `count` unchanged. -/
lemma processRoi_count (s : DetSt) (o : Obs) :
    (processRoi s o).1.count = s.count := by
  simp only [processRoi]
  split_ifs <;> rfl

/-- One iteration preserves `count = 2` and the bound `total_count ≤ 2`. -/
lemma detStep_invariant (s : DetSt) (o : Obs)
    (h : s.count = 2 ∧ s.totalCount ≤ 2) :
    (detStep s o).count = 2 ∧ (detStep s o).totalCount ≤ 2 := by
  obtain ⟨hc, ht⟩ := h
  simp only [detStep]
  split
  · split
    · rename_i hdone
      split
      · rename_i hline
        have h1 := processRoi_totalCount_of_line { s with x := true } o hline
        have h2 := processRoi_count { s with x := true } o
        simp only [DetSt.count, DetSt.totalCount] at h1 h2 ⊢
        constructor
        · simpa [hc] using h2
        · simpa [ht] using h1.le.trans ht
      · exact ⟨hc, ht⟩
    · rename_i hnot
      have hlt : s.totalCount < 2 := by
        simp only [hc] at hnot
        omega
      have h1 := processRoi_totalCount_le s o
      have h2 := processRoi_count s o
      split
      · constructor
        · simpa [hc] using h2
        · simp only []
          omega
      · constructor
        · simpa [hc] using h2
        · simp only []
          omega
  · exact ⟨hc, ht⟩

/-- The invariant holds along every trace from a freshly started thread. -/
lemma runDet_invariant (d : Bool) (tr : List Obs) :
    (runDet (initDet d) tr).count = 2 ∧ (runDet (initDet d) tr).totalCount ≤ 2 := by
  suffices h : ∀ (s : DetSt), s.count = 2 ∧ s.totalCount ≤ 2 →
      (runDet s tr).count = 2 ∧ (runDet s tr).totalCount ≤ 2 by
    exact h (initDet d) (by simp [initDet])
  induction tr with
  | nil => intro s hs; exact hs
  | cons o tl ih =>
      intro s hs
      exact ih (detStep s o) (detStep_invariant s o hs)

/-! ## Claim C10 — the grid count is capped at two -/

/-- Claim C10: along every trace from a freshly started `DetectionThread`
the accumulated grid count never exceeds the hard-coded cap
`self.count = 2`, and any iteration entered with the cap reached turns
the running flag off — the run self-terminates, so no more than two
grids are ever opened regardless of further black-line arrivals. -/
theorem grid_count_capped :
    (∀ (d : Bool) (tr : List Obs), (runDet (initDet d) tr).totalCount ≤ 2) ∧
    (∀ (s : DetSt) (o : Obs), s.running = true → s.count ≤ s.totalCount →
      (detStep s o).running = false) := by
  constructor
  · intro d tr
    exact (runDet_invariant d tr).2
  · intro s o hr hc
    simp only [detStep, hr, if_pos, hc]

/-- Witness for C10: the bound at a concrete four-arrival trace, and the
self-termination step at a concrete state with the cap reached. -/
theorem grid_count_capped_witness :
    (runDet (initDet false)
      [⟨true, false⟩, ⟨false, false⟩, ⟨true, false⟩, ⟨false, false⟩,
       ⟨true, false⟩, ⟨false, false⟩, ⟨true, false⟩]).totalCount ≤ 2 ∧
    (detStep { initDet false with totalCount := 2 } ⟨true, false⟩).running = false :=
  ⟨grid_count_capped.1 false _,
   grid_count_capped.2 { initDet false with totalCount := 2 } ⟨true, false⟩
     (by decide) (by decide)⟩

/-! ## Claim C2 — GridResult emission -/

/-- Claim C2 is a code bug: `detection_result` is declared (and connected
by the GUI layer) but never emitted anywhere in `DetectionThread`.  On
the failing input — a synthetic run with `N = 2` black-line arrivals,
after which the run flushes and stops — the code emits no `GridResult`
at all, where the claim requires `N - 1 = 1` completed results plus one
flushed result.  More generally, the emission log is empty along every
trace. -/
theorem no_gridResult_ever_emitted :
    (∀ (d : Bool) (tr : List Obs), (runDet (initDet d) tr).emitted = []) ∧
    (runDet (initDet false)
        [⟨true, false⟩, ⟨false, false⟩, ⟨true, false⟩, ⟨false, false⟩]).emitted = [] ∧
    (runDet (initDet false)
        [⟨true, false⟩, ⟨false, false⟩, ⟨true, false⟩, ⟨false, false⟩]).totalCount = 2 ∧
    (runDet (initDet false)
        [⟨true, false⟩, ⟨false, false⟩, ⟨true, false⟩, ⟨false, false⟩]).running = false := by
  refine ⟨?_, by decide, by decide, by decide⟩
  intro d tr
  suffices h : ∀ (s : DetSt), s.emitted = [] → (runDet s tr).emitted = [] by
    exact h (initDet d) rfl
  induction tr with
  | nil => intro s hs; exact hs
  | cons o tl ih =>
      intro s hs
      exact ih (detStep s o) ((detStep_emitted s o).trans hs)

/-! ## Claim C1 — the seed flag is not sticky -/

/-- Counterexample to claim C1: inside grid 1 (one black-line arrival,
the line still present, `total_count` constant at 1) an inference call
with a non-empty result sets the seed flag, but the very next inference
call with an empty result resets it to `false` — the flag is not a
sticky OR over the grid. -/
theorem seed_flag_not_sticky :
    (runDet (initDet false) [⟨true, false⟩, ⟨true, true⟩]).seedDetected = true ∧
    (runDet (initDet false) [⟨true, false⟩, ⟨true, true⟩]).totalCount = 1 ∧
    (runDet (initDet false) [⟨true, false⟩, ⟨true, true⟩, ⟨true, false⟩]).seedDetected = false ∧
    (runDet (initDet false) [⟨true, false⟩, ⟨true, true⟩, ⟨true, false⟩]).totalCount = 1 ∧
    (runDet (initDet false) [⟨true, false⟩, ⟨true, true⟩, ⟨true, false⟩]).running = true := by
  decide

/-- Claim C1 (amended): the seed flag carries last-call semantics rather
than sticky-OR semantics: every `process_roi` call first resets
`seed_detected` to `False` and then sets it to `True` exactly when
detection is active, the end flag is unset, and that call's own
inference result is non-empty — so a later empty result within the same
grid leaves the flag `false`; and no `seedPresent` is ever reported. -/
theorem seed_flag_last_call (s : DetSt) (o : Obs) :
    (processRoi s o).1.seedDetected =
      ((processRoi s o).1.detectionActive && !s.x && o.inf) := by
  obtain ⟨r, c, tc, da, lb, sd, xx, dbg, em⟩ := s
  obtain ⟨line, inf⟩ := o
  cases da <;> cases lb <;> cases xx <;> cases line <;> cases inf <;> rfl

/-! ## Claim C3 — no inactivity timeout exists -/

/-- The thread state after the first black-line arrival: detection is
active in grid 1 and the line is still present. -/
def sActive (d : Bool) : DetSt :=
  { running := true, count := 2, totalCount := 1, detectionActive := true,
    lastBlackLineState := true, seedDetected := false, x := false,
    debugSave := d, emitted := [] }

/-- The first arrival takes a fresh thread to `sActive`. -/
lemma detStep_first_arrival (d : Bool) :
    detStep (initDet d) ⟨true, false⟩ = sActive d := by
  cases d <;> rfl

/-- An eventless frame (line still present, empty inference) leaves the
active state unchanged. -/
lemma detStep_sActive (d : Bool) :
    detStep (sActive d) ⟨true, false⟩ = sActive d := by
  cases d <;> rfl

/-- Any number of eventless frames leaves the active state unchanged. -/
lemma runDet_sActive (d : Bool) (n : ℕ) :
    runDet (sActive d) (List.replicate n ⟨true, false⟩) = sActive d := by
  induction n with
  | zero => rfl
  | succ k ih =>
      simp only [List.replicate_succ, runDet, List.foldl_cons, detStep_sActive]
      exact ih

/-- Counterexample to claim C3: with detection active, 600 consecutive
iterations without any line-arrival or line-departure event — at the
loop's fixed 10 ms pace, about 6 seconds of crossing silence, beyond the
claimed 5-second limit — leave the run still active: `running` is still
`true`, nothing has been flushed or emitted, and the grid is unchanged.
The run loop contains no timeout check at all. -/
theorem no_timeout_after_silence :
    (runDet (initDet false) (⟨true, false⟩ :: List.replicate 600 ⟨true, false⟩)).running = true ∧
    (runDet (initDet false) (⟨true, false⟩ :: List.replicate 600 ⟨true, false⟩)).emitted = [] ∧
    (runDet (initDet false) (⟨true, false⟩ :: List.replicate 600 ⟨true, false⟩)).totalCount = 1 := by
  have h : runDet (initDet false) (⟨true, false⟩ :: List.replicate 600 ⟨true, false⟩)
      = sActive false := by
    simp only [runDet, List.foldl_cons]
    have h1 : detStep (initDet false) ⟨true, false⟩ = sActive false :=
      detStep_first_arrival false
    rw [h1]
    exact runDet_sActive false 600
  rw [h]
  exact ⟨rfl, rfl, rfl⟩

/-- Claim C3 (amended): the `DetectionThread` run loop has no inactivity
timeout: while detection is active, arbitrarily many iterations without
a line event leave the run active with nothing flushed; the run
terminates only through an explicit `stop()`, through the two-grid cap,
or through an inference error — never through crossing silence. -/
theorem no_inactivity_timeout (d : Bool) (n : ℕ) :
    (runDet (initDet d) (⟨true, false⟩ :: List.replicate n ⟨true, false⟩)).running = true ∧
    (runDet (initDet d) (⟨true, false⟩ :: List.replicate n ⟨true, false⟩)).emitted = [] := by
  have h : runDet (initDet d) (⟨true, false⟩ :: List.replicate n ⟨true, false⟩)
      = sActive d := by
    simp only [runDet, List.foldl_cons, detStep_first_arrival]
    exact runDet_sActive d n
  rw [h]
  exact ⟨rfl, rfl⟩

/-! ## Claim C7 — rollback of too-fast crossings -/

/-- Claim C7: a valid crossing processed at time `t` whose difference to
the previous recorded crossing is below the minimum valid time discards
the just-recorded timestamp, rolls the expected-marker index back by one
(so the unconditional increment that follows leaves the net index
unchanged), and emits no speed for the pair. -/
theorem rollback_on_short_interval (s : SpeedSt) (t : ℚ)
    (hr : s.running = true) (hidx : s.expectedIdx < TOTAL_MARKERS)
    (hto : t - s.startTime ≤ timeoutSeconds)
    (hne : s.timestamps ≠ [])
    (hshort : t - s.timestamps.getLastD 0 < s.timeLimit) :
    (onCrossing s t).timestamps = s.timestamps ∧
    (onCrossing s t).expectedIdx = s.expectedIdx ∧
    (onCrossing s t).speeds = s.speeds := by
  have hpos : 0 < s.timestamps.length := List.length_pos.mpr hne
  have hlen : 2 ≤ (s.timestamps ++ [t]).length := by
    rw [List.length_append, List.length_singleton]
    omega
  simp only [onCrossing,
    if_pos (show s.running = true ∧ s.expectedIdx < TOTAL_MARKERS from ⟨hr, hidx⟩),
    if_neg (not_lt.mpr hto), if_pos hlen, if_neg (not_lt.mpr hshort.le)]
  refine ⟨?_, ?_, ?_⟩ <;> split <;> simp [List.dropLast_concat]

/-- Witness for C7 at a concrete state: one crossing recorded at time 0,
minimum valid time 1, next crossing at time 1/2. -/
theorem rollback_on_short_interval_witness :
    (onCrossing { timestamps := [0], speeds := [], expectedIdx := 1, running := true,
                  timeLimit := 1, startTime := 0, errors := 0 } (1 / 2)).timestamps = [0] ∧
    (onCrossing { timestamps := [0], speeds := [], expectedIdx := 1, running := true,
                  timeLimit := 1, startTime := 0, errors := 0 } (1 / 2)).expectedIdx = 1 ∧
    (onCrossing { timestamps := [0], speeds := [], expectedIdx := 1, running := true,
                  timeLimit := 1, startTime := 0, errors := 0 } (1 / 2)).speeds = [] :=
  rollback_on_short_interval
    { timestamps := [0], speeds := [], expectedIdx := 1, running := true,
      timeLimit := 1, startTime := 0, errors := 0 } (1 / 2)
    rfl (by decide) (by norm_num [timeoutSeconds]) (by decide) (by norm_num)

/-! ## Claim C8 — a full synthetic calibration run -/

/-- The synthetic crossing-time list has one entry per marker. -/
lemma arithTimes_length (t0 d : ℚ) : ∀ k, (arithTimes t0 d k).length = k
  | 0 => rfl
  | k + 1 => by
      simp [arithTimes, arithTimes_length t0 d k]

/-- Processing the first valid crossing: the timestamp is recorded and
the expected index advances, with no speed to compute yet. -/
lemma onCrossing_first (sp : List ℚ) (i : ℤ) (tl st t : ℚ)
    (hi : i < TOTAL_MARKERS) (hto : t - st ≤ timeoutSeconds) :
    onCrossing { timestamps := [], speeds := sp, expectedIdx := i, running := true,
                 timeLimit := tl, startTime := st, errors := 0 } t =
      { timestamps := [t], speeds := sp, expectedIdx := i + 1,
        running := decide (i + 1 < TOTAL_MARKERS),
        timeLimit := tl, startTime := st, errors := 0 } := by
  simp only [onCrossing, if_pos (show true = true ∧ i < TOTAL_MARKERS from ⟨rfl, hi⟩),
    if_neg (not_lt.mpr hto)]
  norm_num
  by_cases h2 : i + 1 < TOTAL_MARKERS
  · rw [if_pos h2, decide_eq_true h2]
    simp [hi]
  · rw [if_neg h2, decide_eq_false h2]
    simp [hi]

/-- Processing a later valid crossing whose distance to the previous
timestamp is above the minimum valid time: the timestamp is recorded and
the pairwise speed of the last two timestamps is emitted. -/
lemma onCrossing_emit (ts sp : List ℚ) (i : ℤ) (tl st t : ℚ)
    (hi : i < TOTAL_MARKERS) (hto : t - st ≤ timeoutSeconds)
    (hne : ts ≠ []) (hd : tl < t - ts.getLastD 0) :
    onCrossing { timestamps := ts, speeds := sp, expectedIdx := i, running := true,
                 timeLimit := tl, startTime := st, errors := 0 } t =
      { timestamps := ts ++ [t],
        speeds := sp ++ [MARKER_DISTANCE_M / (t - ts.getLastD 0)],
        expectedIdx := i + 1,
        running := decide (i + 1 < TOTAL_MARKERS),
        timeLimit := tl, startTime := st, errors := 0 } := by
  have hlen : 2 ≤ (ts ++ [t]).length := by
    have := List.length_pos.mpr hne
    rw [List.length_append, List.length_singleton]
    omega
  simp only [onCrossing, if_pos (show true = true ∧ i < TOTAL_MARKERS from ⟨rfl, hi⟩),
    if_neg (not_lt.mpr hto), if_pos hlen, if_pos hd]
  by_cases h2 : i + 1 < TOTAL_MARKERS
  · rw [if_pos h2, decide_eq_true h2]
    simp [hi]
  · rw [if_neg h2, decide_eq_false h2]
    simp [hi]

/-- The loop invariant of a synthetic fixed-rate run: after the first
`k ≤ 12` crossings the recorded timestamps are exactly the first `k`
crossing times, `k - 1` pairwise speeds `MARKER_DISTANCE_M / d` have
been emitted, the expected index is `k`, and the run is still live
exactly when `k < 12`. -/
lemma calib_fold (t0 d tl st : ℚ) (hvalid : tl < d) (hpos : 0 < d)
    (hbound : t0 + 11 * d ≤ st + 45) :
    ∀ k : ℕ, k ≤ 12 →
      (arithTimes t0 d k).foldl onCrossing (initSpeed tl st) =
        { timestamps := arithTimes t0 d k,
          speeds := List.replicate (k - 1) (MARKER_DISTANCE_M / d),
          expectedIdx := (k : ℤ),
          running := decide (k < 12),
          timeLimit := tl, startTime := st, errors := 0 } := by
  intro k
  induction k with
  | zero => intro _; rfl
  | succ k ih =>
      intro hk1
      have hklt : k < 12 := hk1
      have hS := ih (Nat.le_of_succ_le hk1)
      have hcast : ((k : ℤ)) < TOTAL_MARKERS := by
        simp only [TOTAL_MARKERS, NUM_WHITE_MARKERS]
        exact_mod_cast hklt
      have hk11 : (k : ℚ) ≤ 11 := by exact_mod_cast Nat.lt_succ_iff.mp hklt
      have hto : t0 + (k : ℚ) * d - st ≤ timeoutSeconds := by
        have h1 : (k : ℚ) * d ≤ 11 * d :=
          mul_le_mul_of_nonneg_right hk11 hpos.le
        simp only [timeoutSeconds]
        linarith
      show (arithTimes t0 d k ++ [t0 + (k : ℚ) * d]).foldl onCrossing (initSpeed tl st) = _
      rw [List.foldl_append, hS, decide_eq_true hklt]
      simp only [List.foldl_cons, List.foldl_nil]
      cases k with
      | zero =>
          rw [show arithTimes t0 d 0 = ([] : List ℚ) from rfl]
          rw [onCrossing_first _ _ _ _ _ hcast hto]
          norm_num [arithTimes, TOTAL_MARKERS, NUM_WHITE_MARKERS]
      | succ j =>
          have hne : arithTimes t0 d (j + 1) ≠ [] := by
            intro h
            have := arithTimes_length t0 d (j + 1)
            rw [h] at this
            simp at this
          have hlast : (arithTimes t0 d (j + 1)).getLastD 0 = t0 + (j : ℚ) * d := by
            show (arithTimes t0 d j ++ [t0 + (j : ℚ) * d]).getLastD 0 = _
            exact List.getLastD_concat _ _ _
          have hdiff : t0 + ((j + 1 : ℕ) : ℚ) * d -
              (arithTimes t0 d (j + 1)).getLastD 0 = d := by
            rw [hlast]
            push_cast
            ring
          have hd : tl < t0 + ((j + 1 : ℕ) : ℚ) * d -
              (arithTimes t0 d (j + 1)).getLastD 0 := by
            rw [hdiff]
            exact hvalid
          rw [onCrossing_emit _ _ _ _ _ _ hcast hto hne hd, hdiff]
          have h1 : arithTimes t0 d (j + 1) ++ [t0 + ((j + 1 : ℕ) : ℚ) * d]
              = arithTimes t0 d (j + 1 + 1) := rfl
          have h2 : List.replicate (j + 1 - 1) (MARKER_DISTANCE_M / d)
                ++ [MARKER_DISTANCE_M / d]
              = List.replicate (j + 1 + 1 - 1) (MARKER_DISTANCE_M / d) := by
            rw [show j + 1 + 1 - 1 = (j + 1 - 1) + 1 from rfl, List.replicate_succ']
          have h3 : ((j + 1 : ℕ) : ℤ) + 1 = ((j + 1 + 1 : ℕ) : ℤ) := by
            push_cast
            ring
          have h4 : (decide (((j + 1 : ℕ) : ℤ) + 1 < TOTAL_MARKERS) : Bool)
              = decide (j + 1 + 1 < 12) := by
            rw [decide_eq_decide]
            simp only [TOTAL_MARKERS, NUM_WHITE_MARKERS]
            omega
          rw [h1, h2, h4, h3]

/-- On the fixed-rate synthetic run every consecutive timestamp
difference equals `d`, so the final-block list comprehension keeps all
eleven pairs and maps each to `MARKER_DISTANCE_M / d`. -/
lemma pairSpeeds_arith (t0 d : ℚ) (hmin : (1 : ℚ) / 1000 < d) :
    pairSpeeds (arithTimes t0 d 12) = List.replicate 11 (MARKER_DISTANCE_M / d) := by
  have hA : arithTimes t0 d 12 =
      [t0, t0 + d, t0 + 2 * d, t0 + 3 * d, t0 + 4 * d, t0 + 5 * d, t0 + 6 * d,
       t0 + 7 * d, t0 + 8 * d, t0 + 9 * d, t0 + 10 * d, t0 + 11 * d] := by
    norm_num [arithTimes]
  have hdiffs :
      (([t0, t0 + d, t0 + 2 * d, t0 + 3 * d, t0 + 4 * d, t0 + 5 * d, t0 + 6 * d,
         t0 + 7 * d, t0 + 8 * d, t0 + 9 * d, t0 + 10 * d, t0 + 11 * d].drop 1).zipWith
        (fun a b => a - b)
        [t0, t0 + d, t0 + 2 * d, t0 + 3 * d, t0 + 4 * d, t0 + 5 * d, t0 + 6 * d,
         t0 + 7 * d, t0 + 8 * d, t0 + 9 * d, t0 + 10 * d, t0 + 11 * d])
      = List.replicate 11 d := by
    norm_num [List.zipWith, List.replicate]
    refine ⟨?_, ?_, ?_, ?_, ?_, ?_, ?_, ?_, ?_, ?_⟩ <;> ring
  rw [pairSpeeds, hA, hdiffs]
  rw [List.filter_eq_self.mpr ?_, List.map_replicate]
  intro a ha
  rw [List.eq_of_mem_replicate ha]
  exact decide_eq_true hmin

/-- Claim C8: a calibration run over a synthetic source whose `TOTAL = 12`
markers cross at the fixed rate `d` — with inter-crossing times valid
(above the configured minimum and above the final block's `0.001`
guard) and the run fitting in the 45-second window — emits exactly
`TOTAL - 1 = 11` pairwise speeds, each equal to
`MARKER_DISTANCE_M / d`, terminates in the done state
(`expected_marker_index = TOTAL_MARKERS`, not running), and — since all
markers were captured — additionally emits the average of the valid
pairwise speeds, which equals `MARKER_DISTANCE_M / d` as well. -/
theorem calibrator_full_run (t0 d tl st : ℚ)
    (hvalid : tl < d) (hmin : (1 : ℚ) / 1000 < d)
    (hbound : t0 + 11 * d ≤ st + 45) :
    (runCalib tl st (arithTimes t0 d 12)).speeds
        = List.replicate 11 (MARKER_DISTANCE_M / d) ++ [MARKER_DISTANCE_M / d] ∧
    (runCalib tl st (arithTimes t0 d 12)).expectedIdx = TOTAL_MARKERS ∧
    (runCalib tl st (arithTimes t0 d 12)).running = false := by
  have hpos : 0 < d := lt_trans (by norm_num) hmin
  have hfold := calib_fold t0 d tl st hvalid hpos hbound 12 le_rfl
  have hrun : runCalib tl st (arithTimes t0 d 12) =
      finalPhase
        { timestamps := arithTimes t0 d 12,
          speeds := List.replicate 11 (MARKER_DISTANCE_M / d),
          expectedIdx := (12 : ℤ), running := false,
          timeLimit := tl, startTime := st, errors := 0 } := by
    rw [runCalib, hfold]
    norm_num
  have hlen : (arithTimes t0 d 12).length = 12 := arithTimes_length t0 d 12
  have havg : (List.replicate 11 (MARKER_DISTANCE_M / d)).sum /
      ((List.replicate 11 (MARKER_DISTANCE_M / d)).length : ℚ)
      = MARKER_DISTANCE_M / d := by
    rw [List.sum_replicate, List.length_replicate, nsmul_eq_mul]
    push_cast
    ring
  rw [hrun]
  simp only [finalPhase, pairSpeeds_arith t0 d hmin, hlen, havg]
  norm_num [TOTAL_MARKERS, NUM_WHITE_MARKERS]

/-- Witness for C8 at the concrete run `t0 = 1`, rate `d = 1`, minimum
valid time `1/2`, start time `0`. -/
theorem calibrator_full_run_witness :
    (runCalib (1 / 2) 0 (arithTimes 1 1 12)).speeds
        = List.replicate 11 (MARKER_DISTANCE_M / 1) ++ [MARKER_DISTANCE_M / 1] ∧
    (runCalib (1 / 2) 0 (arithTimes 1 1 12)).expectedIdx = TOTAL_MARKERS ∧
    (runCalib (1 / 2) 0 (arithTimes 1 1 12)).running = false :=
  calibrator_full_run 1 1 (1 / 2) 0 (by norm_num) (by norm_num) (by norm_num)

end Esp32
